import Mathlib

/-
Verification development for the EGAISCHEK5 barcode-reader utility.

The development shallowly embeds the Python sources `app/barcode_reader.py`,
`app/cli.py` and `app/logging_utils.py`:

  * optional values (Python `None`) become `Option`;
  * Python truthiness of optional strings and lists is made explicit
    (`truthyStr`, `truthyList`);
  * the duck-typed SDK response and configuration objects become structures
    whose `Option` fields record which attributes exist;
  * the process-level behaviour of `main` becomes a pure function from the
    resolved arguments, the filesystem state and the remote response to an
    outcome plus an ordered trace of the externally visible steps;
  * rationals stand in for the floating-point confidences, and the fixed-point
    percent rendering of the Python format string is modelled over the
    numerator and denominator with round-half-to-even.

Note on `app/cli.py`: lines 131-136 of the source are a duplicated block in
which two `else:` clauses follow no matching `if`, so the Python module as a
whole is not syntactically valid.  The function `main_run` below models the
coherent control flow of lines 85-130 together with the final `return 0` of
line 138, which is the evident intent; the defect itself is recorded in the
analysis of claim C9.
-/

/-- Models Python `sep.join(parts)` for a list of strings. -/
def pyJoin (sep : String) : List String → String
  | [] => ""
  | [x] => x
  | x :: xs => x ++ sep ++ pyJoin sep xs

/-- Python truthiness of an optional string: `None` and the empty string are
falsy, every other string is truthy. -/
def truthyStr : Option String → Bool
  | none => false
  | some s => if s = "" then false else true

/-- Python truthiness of an optional list: `None` and the empty list are
falsy, every non-empty list is truthy. -/
def truthyList {α : Type} : Option (List α) → Bool
  | none => false
  | some [] => false
  | some (_ :: _) => true

/-- Number of newline characters in a string; a printed string with
`newline_count s = 0` occupies exactly one output line. -/
def newline_count (s : String) : Nat := s.data.count '\n'

/-- Decimal digit character, used by the model of fixed-point rendering. -/
def digit_char (d : Nat) : Char := Char.ofNat (48 + d % 10)

/-- Decimal digits of a natural number (fuel-driven, most significant first). -/
def nat_digits : Nat → Nat → List Char
  | 0, _ => []
  | fuel + 1, n => if n < 10 then [digit_char n] else nat_digits fuel (n / 10) ++ [digit_char (n % 10)]

/-- Decimal rendering of a natural number. -/
def nat_repr (n : Nat) : String := ⟨nat_digits (n + 1) n⟩

/-- Round `num / den` to the nearest integer, halves to even; this is the
rounding used by Python fixed-point string formatting. -/
def round_half_even_int (num : Int) (den : Nat) : Int :=
  let f : Int := Int.fdiv num (den : Int)
  let r : Int := num - f * (den : Int)
  if 2 * r < (den : Int) then f
  else if (den : Int) < 2 * r then f + 1
  else if f % 2 = 0 then f else f + 1

/-- Models the Python format specifier `.2%` applied to a confidence value:
the value is multiplied by 100 and rendered with exactly two digits after the
decimal point, followed by a percent sign.  The arithmetic is carried out on
the numerator and denominator of the rational. -/
def format_percent (c : ℚ) : String :=
  let n : Int := round_half_even_int (c.num * 10000) c.den
  let m : Nat := n.natAbs
  let sign : String := if n < 0 then "-" else ""
  let frac : Nat := m % 100
  let frac_str : String := (if frac < 10 then "0" else "") ++ nat_repr frac
  sign ++ nat_repr (m / 100) ++ "." ++ frac_str ++ "%"

/-- Embeds the dataclass `RecognizedBarcode` of `app/barcode_reader.py`
(lines 30-36): value, symbology and an optional confidence. -/
structure RecognizedBarcode where
  value : String
  symbology : String
  confidence : Option ℚ
deriving DecidableEq

/-- Duck-typed barcode item of the vendor SDK response.  Each field is `none`
when the corresponding attribute is missing from the payload object, so that
the `getattr` defaults of `app/barcode_reader.py` lines 128-135 fire. -/
structure SdkBarcode where
  barcode_value : Option String
  type : Option String
  code_type_name : Option String
  confidence : Option ℚ
deriving DecidableEq

/-- Duck-typed scan response of the vendor SDK.  A field is `none` when the
response object has no attribute of that name; when present, the attribute
holds a (possibly empty) list of barcode items. -/
structure ScanResponse where
  barcodes : Option (List SdkBarcode)
  barcode_list : Option (List SdkBarcode)
deriving DecidableEq

/-- Embeds the result-list extraction shared by both adapter variants
(`app/barcode_reader.py` line 127 and line 154):
`getattr(response, "barcodes", None) or getattr(response, "barcode_list", [])`.
The Python `or` keeps its left operand only when it is truthy, so a missing or
falsy (empty) `barcodes` attribute falls through to `barcode_list`. -/
def extract_results (response : ScanResponse) : List SdkBarcode :=
  if truthyList response.barcodes then response.barcodes.getD []
  else response.barcode_list.getD []

/-- Embeds the per-item conversion of `app/barcode_reader.py` lines 129-133
and 156-160: `getattr(item, "barcode_value", "")`,
`getattr(item, "type", getattr(item, "code_type_name", ""))` and
`getattr(item, "confidence", None)`. -/
def to_recognized (item : SdkBarcode) : RecognizedBarcode :=
  { value := item.barcode_value.getD ""
    symbology := item.type.getD (item.code_type_name.getD "")
    confidence := item.confidence }

/-- Result list produced by `_scan_with_new_sdk`
(`app/barcode_reader.py` lines 126-135) from a given response. -/
def scan_results_new (response : ScanResponse) : List RecognizedBarcode :=
  (extract_results response).map to_recognized

/-- Result list produced by `_scan_with_legacy_sdk`
(`app/barcode_reader.py` lines 153-162) from a given response. -/
def scan_results_legacy (response : ScanResponse) : List RecognizedBarcode :=
  (extract_results response).map to_recognized

/-- Keyword arguments passed to the legacy recognition request
(`app/barcode_reader.py` lines 144-152).  A `none` field models a keyword
that is absent or explicitly `None`, which the vendor constructor treats as
unset. -/
structure LegacyRequest where
  type : Option String
  file : List Nat
  preset : Option String
deriving DecidableEq

/-- Embeds the request construction of `_scan_with_legacy_sdk`
(`app/barcode_reader.py` lines 144-152): the symbology filters are joined
with commas when truthy and left `None` otherwise, the raw image bytes are
passed as `file`, and `preset` is added only when truthy. -/
def legacy_request (image_bytes : List Nat) (barcode_types : Option (List String))
    (preset : Option String) : LegacyRequest :=
  let types_param : Option String :=
    if truthyList barcode_types then some (pyJoin "," (barcode_types.getD [])) else none
  { type := types_param
    file := image_bytes
    preset := if truthyStr preset then preset else none }

/-- Attribute-existence shape of the legacy vendor `Configuration` object, as
probed by `hasattr` in `app/barcode_reader.py` lines 63-83. -/
structure LegacyConfigShape where
  has_client_id : Bool
  has_app_sid : Bool
  has_client_secret : Bool
  has_app_key : Bool
  has_api_base_url : Bool
  has_base_url : Bool
deriving DecidableEq

/-- Attributes assigned on the legacy configuration object by
`_build_configuration`; a field is `none` when the attribute was never set. -/
structure PopulatedConfig where
  set_client_id : Option String
  set_app_sid : Option String
  set_client_secret : Option String
  set_app_key : Option String
  set_api_base_url : Option String
  set_base_url : Option String
deriving DecidableEq

/-- Fresh configuration object before any assignment. -/
def empty_config : PopulatedConfig :=
  { set_client_id := none, set_app_sid := none, set_client_secret := none
    set_app_key := none, set_api_base_url := none, set_base_url := none }

/-- Identifier probe of `app/barcode_reader.py` lines 64-69: try `client_id`,
then `app_sid`, otherwise raise an `AttributeError`. -/
def set_id_field (shape : LegacyConfigShape) (client_id : String)
    (c : PopulatedConfig) : Except String PopulatedConfig :=
  if shape.has_client_id then .ok { c with set_client_id := some client_id }
  else if shape.has_app_sid then .ok { c with set_app_sid := some client_id }
  else .error "Unsupported SDK configuration: client id field not found"

/-- Secret probe of `app/barcode_reader.py` lines 71-76: try `client_secret`,
then `app_key`, otherwise raise an `AttributeError`. -/
def set_secret_field (shape : LegacyConfigShape) (client_secret : String)
    (c : PopulatedConfig) : Except String PopulatedConfig :=
  if shape.has_client_secret then .ok { c with set_client_secret := some client_secret }
  else if shape.has_app_key then .ok { c with set_app_key := some client_secret }
  else .error "Unsupported SDK configuration: client secret field not found"

/-- Base-url probe of `app/barcode_reader.py` lines 78-82: only entered when
`base_url` is truthy; tries `api_base_url`, then `base_url`, and silently does
nothing when neither attribute exists. -/
def set_url_field (shape : LegacyConfigShape) (base_url : Option String)
    (c : PopulatedConfig) : PopulatedConfig :=
  if truthyStr base_url then
    if shape.has_api_base_url then { c with set_api_base_url := base_url }
    else if shape.has_base_url then { c with set_base_url := base_url }
    else c
  else c

/-- Embeds the legacy branch of `BarcodeReader._build_configuration`
(`app/barcode_reader.py` lines 63-83): probe the identifier field, then the
secret field, then optionally the base-url field. -/
def build_configuration (shape : LegacyConfigShape) (client_id client_secret : String)
    (base_url : Option String) : Except String PopulatedConfig :=
  match set_id_field shape client_id empty_config with
  | .error e => .error e
  | .ok c1 =>
    match set_secret_field shape client_secret c1 with
    | .error e => .error e
    | .ok c2 => .ok (set_url_field shape base_url c2)

/-- Row dictionary of the printed payload, built in `app/cli.py` lines
114-121 from a `RecognizedBarcode`; all three keys are always present. -/
structure PayloadItem where
  value : String
  symbology : String
  confidence : Option ℚ
deriving DecidableEq

/-- Embeds the payload-dictionary construction of `app/cli.py` lines 114-121. -/
def to_payload (r : RecognizedBarcode) : PayloadItem :=
  { value := r.value, symbology := r.symbology, confidence := r.confidence }

/-- One row of `_format_table` (`app/cli.py` lines 76-81): `SYMBOLOGY: VALUE`
followed by a parenthesised percentage exactly when the confidence is a
number. -/
def format_row (item : PayloadItem) : String :=
  let confidence_str : String :=
    match item.confidence with
    | some c => " (" ++ format_percent c ++ ")"
    | none => ""
  item.symbology ++ ": " ++ item.value ++ confidence_str

/-- Embeds `_format_table` (`app/cli.py` lines 74-82): one row per entry
joined with newlines, or the fixed message for an empty list. -/
def format_table (results : List PayloadItem) : String :=
  let rows := results.map format_row
  if rows = [] then "No barcodes found." else pyJoin "\n" rows

/-- Minimal JSON document model for the value passed to `json.dump` in
`app/cli.py` line 125 (or line 133 of the duplicated block). -/
inductive Json where
  | null : Json
  | str : String → Json
  | num : ℚ → Json
  | arr : List Json → Json
  | obj : List (String × Json) → Json

/-- JSON encoding of an optional confidence: `null` exactly when absent. -/
def confidence_json : Option ℚ → Json
  | some c => .num c
  | none => .null

/-- JSON object for one payload row, with exactly the three documented keys
in the order they are written in `app/cli.py` lines 115-119. -/
def item_json (p : PayloadItem) : Json :=
  .obj [("value", .str p.value), ("symbology", .str p.symbology),
        ("confidence", confidence_json p.confidence)]

/-- JSON document emitted in JSON output mode: an array with one object per
payload row, in payload order. -/
def json_payload (payload : List PayloadItem) : Json :=
  .arr (payload.map item_json)

/-- Keys of a JSON object, in order; the reading side of the round trip. -/
def obj_keys : Json → List String
  | .obj fields => fields.map Prod.fst
  | _ => []

/-- Field lookup on a JSON object; the reading side of the round trip. -/
def obj_get (j : Json) (k : String) : Option Json :=
  match j with
  | .obj fields => (fields.find? (fun f => f.fst == k)).map Prod.snd
  | _ => none

/-- Diagnostic raised by `_ensure_credentials` (`app/cli.py` lines 67-70). -/
def missing_credentials_message : String :=
  "Missing credentials. Either pass --client-id/--client-secret or set ASPOSE_CLIENT_ID/ASPOSE_CLIENT_SECRET."

/-- Embeds `_ensure_credentials` (`app/cli.py` lines 65-71): `SystemExit`
with the diagnostic when either resolved credential is falsy (absent or the
empty string). -/
def ensure_credentials (client_id client_secret : Option String) : Except String Unit :=
  if !truthyStr client_id || !truthyStr client_secret then
    .error missing_credentials_message
  else .ok ()

/-- Command-line arguments of `app/cli.py` after parsing: `client_id` and
`client_secret` are the values after the flag and environment-variable
resolution performed by the argparse defaults (lines 35-47); `none` means
that neither the flag nor the environment variable was set. -/
structure CliArgs where
  image : String
  barcode_types : Option (List String)
  preset : Option String
  base_url : Option String
  client_id : Option String
  client_secret : Option String
  json_mode : Bool
deriving DecidableEq

/-- Externally visible steps of one invocation of `main`, in order. -/
inductive Event where
  | configure_logging : Event
  | credentials_validated : Event
  | adapter_constructed : Event
  | scan_invoked : Event
  | network_call : Event
  | adapter_released : Event
  | printed : Event
deriving DecidableEq

/-- Process outcome of one invocation: a normal return code, or termination
by an uncaught exception or `SystemExit`, which the interpreter turns into a
non-zero exit status. -/
inductive Outcome where
  | returned : Nat → Outcome
  | failed : String → Outcome
deriving DecidableEq

/-- Exit status of the process for an outcome; Python exits with status 1 for
an uncaught exception and for `SystemExit` carrying a message string. -/
def exit_code : Outcome → Nat
  | .returned c => c
  | .failed _ => 1

/-- What `main` writes to stdout: a table string or a JSON document. -/
inductive Output where
  | table : String → Output
  | json_doc : Json → Output

/-- Result of one modelled invocation of `main`: the outcome, the ordered
trace of externally visible steps, and the stdout payload when one was
written. -/
structure MainResult where
  outcome : Outcome
  events : List Event
  stdout : Option Output

/-- Embeds `main` of `app/cli.py` (the coherent control flow of lines 85-130
plus the `return 0` of line 138; see the header note about the syntactically
invalid duplicate at lines 131-136).  Logging is configured first, then the
credentials are validated; the adapter is a scoped resource around the scan,
so it is constructed before `scan_image` runs and released even when the scan
raises; `scan_image` (`app/barcode_reader.py` lines 100-108) checks the image
path before reading bytes and calling the remote API.  `image_exists` is the
filesystem state for the resolved image path, `new_sdk` selects the adapter
variant and `response` is the remote reply. -/
def main_run (args : CliArgs) (image_exists : Bool) (new_sdk : Bool)
    (response : ScanResponse) : MainResult :=
  match ensure_credentials args.client_id args.client_secret with
  | .error msg => { outcome := .failed msg, events := [.configure_logging], stdout := none }
  | .ok _ =>
    if image_exists then
      let results := if new_sdk then scan_results_new response else scan_results_legacy response
      let payload := results.map to_payload
      if args.json_mode then
        { outcome := .returned 0
          events := [.configure_logging, .credentials_validated, .adapter_constructed,
                     .scan_invoked, .network_call, .adapter_released, .printed]
          stdout := some (.json_doc (json_payload payload)) }
      else
        { outcome := .returned 0
          events := [.configure_logging, .credentials_validated, .adapter_constructed,
                     .scan_invoked, .network_call, .adapter_released, .printed]
          stdout := some (.table (format_table payload ++ "\n")) }
    else
      { outcome := .failed ("Image not found: " ++ args.image)
        events := [.configure_logging, .credentials_validated, .adapter_constructed,
                   .scan_invoked, .adapter_released]
        stdout := none }

/-- Concrete confidence value 0.97 used by the worked examples. -/
def sample_confidence : ℚ := ⟨97, 100, by decide, by decide⟩

/-- Concrete SDK barcode item used by the worked examples. -/
def sample_item : SdkBarcode :=
  { barcode_value := some "4606224132416", type := some "EAN13"
    code_type_name := none, confidence := some sample_confidence }

/-- Concrete response whose `barcodes` attribute is present but empty while
`barcode_list` is present and non-empty. -/
def first_empty_response : ScanResponse :=
  { barcodes := some [], barcode_list := some [sample_item] }

/-- Concrete response carrying one item in its `barcodes` attribute. -/
def sample_response : ScanResponse :=
  { barcodes := some [sample_item], barcode_list := none }

/-- Concrete response with neither list attribute present. -/
def empty_response : ScanResponse :=
  { barcodes := none, barcode_list := none }

/-- Legacy configuration shape exposing the primary credential attribute
names but no base-url attribute at all. -/
def no_url_shape : LegacyConfigShape :=
  { has_client_id := true, has_app_sid := false, has_client_secret := true
    has_app_key := false, has_api_base_url := false, has_base_url := false }

/-- Legacy configuration shape exposing only the fallback attribute names
`app_sid`, `app_key` and `base_url`. -/
def fallback_shape : LegacyConfigShape :=
  { has_client_id := false, has_app_sid := true, has_client_secret := false
    has_app_key := true, has_api_base_url := false, has_base_url := true }

/-- Concrete resolved arguments with valid credentials, table mode. -/
def sample_args : CliArgs :=
  { image := "barcode.png", barcode_types := none, preset := none, base_url := none
    client_id := some "client-id", client_secret := some "client-secret", json_mode := false }

/-- Concrete resolved arguments whose image path does not exist. -/
def missing_image_args : CliArgs :=
  { image := "missing.png", barcode_types := none, preset := none, base_url := none
    client_id := some "client-id", client_secret := some "client-secret", json_mode := false }

/-- Concrete resolved arguments with no credentials at all. -/
def no_creds_args : CliArgs :=
  { image := "barcode.png", barcode_types := none, preset := none, base_url := none
    client_id := none, client_secret := none, json_mode := false }

/-- Concrete resolved arguments where the client id was passed as the empty
string. -/
def empty_id_args : CliArgs :=
  { image := "barcode.png", barcode_types := none, preset := none, base_url := none
    client_id := some "", client_secret := some "client-secret", json_mode := false }

/-- Concrete payload row with confidence 0.97 used by the worked examples. -/
def sample_payload_row : PayloadItem :=
  { value := "4606224132416", symbology := "EAN13", confidence := some sample_confidence }

theorem digit_char_ne_newline (d : Nat) : digit_char d ≠ '\n' := by
  have h : d % 10 < 10 := Nat.mod_lt d (by decide)
  unfold digit_char
  generalize hx : d % 10 = x at h ⊢
  interval_cases x <;> decide

theorem nat_digits_ne_newline (fuel : Nat) :
    ∀ (n : Nat), ∀ c ∈ nat_digits fuel n, c ≠ '\n' := by
  induction fuel with
  | zero =>
    intro n c hc
    simp [nat_digits] at hc
  | succ fuel ih =>
    intro n c hc
    unfold nat_digits at hc
    by_cases h : n < 10
    · rw [if_pos h] at hc
      have hc2 : c = digit_char n := by simpa using hc
      exact hc2 ▸ digit_char_ne_newline n
    · rw [if_neg h] at hc
      rcases List.mem_append.mp hc with hc1 | hc1
      · exact ih _ c hc1
      · have hc2 : c = digit_char (n % 10) := by simpa using hc1
        exact hc2 ▸ digit_char_ne_newline _

theorem newline_count_nat_repr (n : Nat) : newline_count (nat_repr n) = 0 := by
  show (nat_digits (n + 1) n).count '\n' = 0
  rw [List.count_eq_zero]
  intro hmem
  exact nat_digits_ne_newline (n + 1) n '\n' hmem rfl

theorem newline_count_append (a b : String) :
    newline_count (a ++ b) = newline_count a + newline_count b := by
  simp [newline_count, String.data_append, List.count_append]

theorem newline_count_format_percent (c : ℚ) : newline_count (format_percent c) = 0 := by
  simp only [format_percent]
  split_ifs <;> simp only [newline_count_append, newline_count_nat_repr] <;> decide

theorem newline_count_format_row (r : PayloadItem)
    (hv : newline_count r.value = 0) (hs : newline_count r.symbology = 0) :
    newline_count (format_row r) = 0 := by
  unfold format_row
  rcases hconf : r.confidence with _ | c <;>
    simp [hconf, newline_count_append, hv, hs, newline_count_format_percent] <;> decide

theorem newline_count_pyJoin :
    ∀ rows : List String, rows ≠ [] → (∀ r ∈ rows, newline_count r = 0) →
      newline_count (pyJoin "\n" rows) + 1 = rows.length
  | [], hne, _ => absurd rfl hne
  | [x], _, h => by
    have hx := h x (List.mem_singleton.mpr rfl)
    simp [pyJoin, hx]
  | x :: y :: t, _, h => by
    have hx := h x (List.mem_cons_self x (y :: t))
    have tail := newline_count_pyJoin (y :: t) (by simp)
      (fun r hr => h r (List.mem_cons_of_mem x hr))
    have hj : pyJoin "\n" (x :: y :: t) = x ++ "\n" ++ pyJoin "\n" (y :: t) := rfl
    rw [hj, newline_count_append, newline_count_append, hx]
    have h1 : newline_count "\n" = 1 := by decide
    rw [h1]
    simp only [List.length_cons] at tail ⊢
    omega

theorem zip_map_self {α β : Type} (f : α → β) :
    (l : List α) → (l.map f).zip l = l.map (fun x => (f x, x))
  | [] => rfl
  | x :: xs => by simp [zip_map_self f xs]

theorem ensure_credentials_ok (cid cs : Option String)
    (h1 : truthyStr cid = true) (h2 : truthyStr cs = true) :
    ensure_credentials cid cs = .ok () := by
  simp [ensure_credentials, h1, h2]

theorem main_run_creds_not_truthy (args : CliArgs) (ie nsdk : Bool) (response : ScanResponse)
    (h : truthyStr args.client_id = false ∨ truthyStr args.client_secret = false) :
    main_run args ie nsdk response =
      { outcome := .failed missing_credentials_message
        events := [Event.configure_logging], stdout := none } := by
  have hcred : ensure_credentials args.client_id args.client_secret =
      .error missing_credentials_message := by
    rcases h with h | h <;> simp [ensure_credentials, h]
  simp [main_run, hcred]

/-- Claim C1: for every result list given to the table formatter, the output
has exactly one line per entry (provided the entry fields themselves contain
no newline characters), each line being `SYMBOLOGY: VALUE` followed by a
parenthesised two-decimal percentage exactly when the confidence is a number
and with the parenthetical omitted when the confidence is absent; for the
empty list the output is exactly the fixed line `No barcodes found.`. -/
theorem format_table_spec (results : List PayloadItem)
    (h : ∀ r ∈ results, newline_count r.value = 0 ∧ newline_count r.symbology = 0) :
    format_table [] = "No barcodes found." ∧
    (results ≠ [] → newline_count (format_table results) + 1 = results.length) ∧
    ∀ r ∈ results,
      (r.confidence = none → format_row r = r.symbology ++ ": " ++ r.value) ∧
      ∀ c, r.confidence = some c →
        format_row r = r.symbology ++ ": " ++ r.value ++ (" (" ++ format_percent c ++ ")") := by
  refine ⟨rfl, ?_, ?_⟩
  · intro hne
    have hrows : ∀ row ∈ results.map format_row, newline_count row = 0 := by
      intro row hrow
      rcases List.mem_map.mp hrow with ⟨r, hr, rfl⟩
      exact newline_count_format_row r (h r hr).1 (h r hr).2
    have hne2 : results.map format_row ≠ [] := by
      simpa using hne
    have hcount := newline_count_pyJoin (results.map format_row) hne2 hrows
    have htab : format_table results = pyJoin "\n" (results.map format_row) := by
      simp [format_table, hne2]
    rw [htab, hcount]
    simp
  · intro r hr
    constructor
    · intro hc
      simp [format_row, hc]
    · intro c hc
      simp [format_row, hc]

/-- Witness for claim C1: a one-element list whose entry has confidence 0.97
renders as one line `EAN13: 4606224132416 (97.00%)`, so 0.97 prints as the
two-decimal percentage `97.00%`. -/
theorem format_table_spec_witness :
    (∀ r ∈ [sample_payload_row], newline_count r.value = 0 ∧ newline_count r.symbology = 0) ∧
    newline_count (format_table [sample_payload_row]) + 1 = 1 ∧
    format_row sample_payload_row = "EAN13: 4606224132416 (97.00%)" := by
  have h : ∀ r ∈ [sample_payload_row],
      newline_count r.value = 0 ∧ newline_count r.symbology = 0 := by decide
  have spec := format_table_spec [sample_payload_row] h
  refine ⟨h, ?_, ?_⟩
  · simpa using spec.2.1 (by simp)
  · have h2 := (spec.2.2 sample_payload_row (by simp)).2 sample_confidence rfl
    rw [h2]
    decide

/-- Claim C2: the JSON document emitted in JSON output mode is an array with
exactly one element per adapter result, in result order; reading any element
back yields exactly the three fields `value`, `symbology` and `confidence`,
and the `confidence` field is JSON `null` exactly when the confidence was
absent in the corresponding `RecognizedBarcode`. -/
theorem json_payload_roundtrip (results : List RecognizedBarcode) :
    ∃ elems : List Json,
      json_payload (results.map to_payload) = .arr elems ∧
      elems.length = results.length ∧
      ∀ p ∈ elems.zip results,
        obj_keys p.1 = ["value", "symbology", "confidence"] ∧
        obj_get p.1 "value" = some (.str p.2.value) ∧
        obj_get p.1 "symbology" = some (.str p.2.symbology) ∧
        (∀ c, p.2.confidence = some c → obj_get p.1 "confidence" = some (.num c)) ∧
        (obj_get p.1 "confidence" = some .null ↔ p.2.confidence = none) := by
  refine ⟨results.map (fun r => item_json (to_payload r)), ?_, by simp, ?_⟩
  · simp [json_payload]
  · rw [zip_map_self (fun r => item_json (to_payload r)) results]
    intro p hp
    rcases List.mem_map.mp hp with ⟨r, hr, rfl⟩
    have hget : obj_get (item_json (to_payload r)) "confidence" =
        some (confidence_json r.confidence) := rfl
    refine ⟨rfl, rfl, rfl, ?_, ?_⟩
    · intro c hc
      rw [hget, hc]
      rfl
    · rw [hget]
      constructor
      · intro he
        rcases hc : r.confidence with _ | c
        · rfl
        · rw [hc] at he
          simp [confidence_json] at he
      · intro hc
        rw [hc]
        rfl

/-- Witness for claim C2 at a concrete one-element result list. -/
theorem json_payload_roundtrip_witness :
    ∃ elems : List Json,
      json_payload ([to_recognized sample_item].map to_payload) = .arr elems ∧
      elems.length = 1 := by
  rcases json_payload_roundtrip [to_recognized sample_item] with ⟨elems, h1, h2, _⟩
  exact ⟨elems, h1, h2⟩

/-- Claim C3: whenever the resolved client id or client secret is not a
truthy string, the invocation terminates with the descriptive credentials
diagnostic and a non-zero exit status, after configuring logging only: no
adapter is constructed and no network call is attempted. -/
theorem main_missing_credentials (args : CliArgs) (image_exists new_sdk : Bool)
    (response : ScanResponse)
    (h : truthyStr args.client_id = false ∨ truthyStr args.client_secret = false) :
    (main_run args image_exists new_sdk response).outcome =
      .failed missing_credentials_message ∧
    exit_code (main_run args image_exists new_sdk response).outcome ≠ 0 ∧
    (main_run args image_exists new_sdk response).events = [Event.configure_logging] ∧
    Event.adapter_constructed ∉ (main_run args image_exists new_sdk response).events ∧
    Event.network_call ∉ (main_run args image_exists new_sdk response).events := by
  have hm := main_run_creds_not_truthy args image_exists new_sdk response h
  rw [hm]
  exact ⟨rfl, by decide, rfl, by decide, by decide⟩

/-- Witness for claim C3: both credentials unset. -/
theorem main_missing_credentials_witness :
    (main_run no_creds_args true true empty_response).outcome =
      .failed missing_credentials_message ∧
    Event.adapter_constructed ∉ (main_run no_creds_args true true empty_response).events ∧
    Event.network_call ∉ (main_run no_creds_args true true empty_response).events := by
  have h := main_missing_credentials no_creds_args true true empty_response (Or.inl (by decide))
  exact ⟨h.1, h.2.2.2.1, h.2.2.2.2⟩

/-- Counterexample for claim C4: with valid credentials and a non-existent
image path, the invocation does fail with the not-found diagnostic, but the
adapter has already been constructed by then, contradicting the claim that
the failure happens before adapter construction. -/
theorem image_not_found_counterexample :
    (main_run missing_image_args false true empty_response).outcome =
      .failed "Image not found: missing.png" ∧
    Event.adapter_constructed ∈ (main_run missing_image_args false true empty_response).events := by
  exact ⟨rfl, by decide⟩

/-- Claim C4 (amended): with valid credentials and a non-existent image path,
the invocation fails with the not-found diagnostic and a non-zero exit status
before any network call is attempted; the adapter, however, has already been
constructed (and is released again), because the existence check lives inside
`scan_image`, which runs after the `BarcodeReader` constructor. -/
theorem image_not_found_before_network (args : CliArgs) (new_sdk : Bool)
    (response : ScanResponse)
    (h1 : truthyStr args.client_id = true) (h2 : truthyStr args.client_secret = true) :
    (main_run args false new_sdk response).outcome =
      .failed ("Image not found: " ++ args.image) ∧
    exit_code (main_run args false new_sdk response).outcome ≠ 0 ∧
    Event.network_call ∉ (main_run args false new_sdk response).events ∧
    (main_run args false new_sdk response).events =
      [Event.configure_logging, Event.credentials_validated, Event.adapter_constructed,
       Event.scan_invoked, Event.adapter_released] := by
  have hok := ensure_credentials_ok args.client_id args.client_secret h1 h2
  have hm : main_run args false new_sdk response =
      { outcome := .failed ("Image not found: " ++ args.image)
        events := [Event.configure_logging, Event.credentials_validated,
                   Event.adapter_constructed, Event.scan_invoked, Event.adapter_released]
        stdout := none } := by
    simp [main_run, hok]
  rw [hm]
  exact ⟨rfl, by simp [exit_code], by simp, rfl⟩

/-- Witness for claim C4 (amended form) at concrete arguments. -/
theorem image_not_found_before_network_witness :
    (main_run missing_image_args false false empty_response).outcome =
      .failed "Image not found: missing.png" ∧
    Event.network_call ∉ (main_run missing_image_args false false empty_response).events := by
  have h := image_not_found_before_network missing_image_args false empty_response
    (by decide) (by decide)
  exact ⟨by rw [h.1]; rfl, h.2.2.1⟩

/-- Counterexample for claim C5: on a response whose `barcodes` attribute is
present (holding the empty list) while `barcode_list` holds one item, both
adapter variants use the `barcode_list` value, so the first present field
does not win regardless of its contents. -/
theorem first_field_present_counterexample :
    first_empty_response.barcodes = some [] ∧
    scan_results_new first_empty_response = [to_recognized sample_item] ∧
    scan_results_legacy first_empty_response = [to_recognized sample_item] ∧
    scan_results_new first_empty_response ≠ [] := by decide

/-- Claim C5 (amended): in both adapter variants the barcode list is taken
from the `barcodes` field when that field is present with a truthy
(non-empty) value; when `barcodes` is absent or present but empty, the list
is taken from `barcode_list`, defaulting to the empty list.  Presence alone
is not enough: a present-but-empty first field defers to the second. -/
theorem extract_results_truthiness (response : ScanResponse) :
    (∀ l, response.barcodes = some l → l ≠ [] → extract_results response = l) ∧
    (response.barcodes = none ∨ response.barcodes = some [] →
      extract_results response = response.barcode_list.getD []) ∧
    scan_results_new response = (extract_results response).map to_recognized ∧
    scan_results_legacy response = (extract_results response).map to_recognized := by
  refine ⟨?_, ?_, rfl, rfl⟩
  · intro l hl hne
    rcases l with _ | ⟨x, xs⟩
    · exact absurd rfl hne
    · simp [extract_results, hl, truthyList]
  · intro h
    rcases h with h | h <;> simp [extract_results, h, truthyList]

/-- Witness for claim C5 (amended form) at concrete responses. -/
theorem extract_results_truthiness_witness :
    extract_results first_empty_response = [sample_item] ∧
    extract_results sample_response = [sample_item] := by
  have h1 := (extract_results_truthiness first_empty_response).2.1 (Or.inr rfl)
  have h2 := (extract_results_truthiness sample_response).1 [sample_item] rfl (by simp)
  exact ⟨by rw [h1]; rfl, h2⟩

/-- Counterexample for claim C6: a configuration shape exposing the primary
credential attributes but neither `api_base_url` nor `base_url`, together
with a non-empty base-url override, makes `_build_configuration` succeed
silently (no attribute populated for the override) instead of failing with a
configuration error, contradicting the claim that every field without a
matching attribute name raises. -/
theorem build_configuration_url_counterexample :
    no_url_shape.has_api_base_url = false ∧
    no_url_shape.has_base_url = false ∧
    build_configuration no_url_shape "id" "secret" (some "https://api.example.com") =
      .ok { set_client_id := some "id", set_app_sid := none
            set_client_secret := some "secret", set_app_key := none
            set_api_base_url := none, set_base_url := none } :=
  ⟨rfl, rfl, rfl⟩

/-- Claim C6 (amended): the legacy configuration builder probes attribute
names in priority order and populates the first one found for each field; it
fails with a configuration error when no attribute name matches for the
identifier or the secret, but the base-url probe is silent: when neither url
attribute exists the override is simply dropped and the build still
succeeds.  In particular, a shape exposing only `app_sid`, `app_key` and
`base_url` populates exactly those attributes. -/
theorem build_configuration_probing (shape : LegacyConfigShape) (cid cs u : String)
    (hu : u ≠ "") :
    (shape.has_client_id = false → shape.has_app_sid = false →
      build_configuration shape cid cs (some u) =
        .error "Unsupported SDK configuration: client id field not found") ∧
    ((shape.has_client_id = true ∨ shape.has_app_sid = true) →
      shape.has_client_secret = false → shape.has_app_key = false →
      build_configuration shape cid cs (some u) =
        .error "Unsupported SDK configuration: client secret field not found") ∧
    ((build_configuration shape cid cs (some u)).isOk = true ↔
      ((shape.has_client_id = true ∨ shape.has_app_sid = true) ∧
       (shape.has_client_secret = true ∨ shape.has_app_key = true))) ∧
    build_configuration fallback_shape cid cs (some u) =
      .ok { set_client_id := none, set_app_sid := some cid, set_client_secret := none
            set_app_key := some cs, set_api_base_url := none, set_base_url := some u } := by
  obtain ⟨b1, b2, b3, b4, b5, b6⟩ := shape
  refine ⟨?_, ?_, ?_, ?_⟩
  · intro h1 h2
    subst h1
    subst h2
    simp [build_configuration, set_id_field]
  · intro h12 h3 h4
    subst h3
    subst h4
    rcases h12 with h | h
    · subst h
      simp [build_configuration, set_id_field, set_secret_field]
    · subst h
      cases b1 <;> simp [build_configuration, set_id_field, set_secret_field]
  · cases b1 <;> cases b2 <;> cases b3 <;> cases b4 <;>
      simp [build_configuration, set_id_field, set_secret_field, Except.isOk, Except.toBool]
  · simp [build_configuration, set_id_field, set_secret_field, set_url_field,
      fallback_shape, empty_config, truthyStr, hu]

/-- Witness for claim C6 (amended form): the fallback-only shape populates
exactly the fallback attributes. -/
theorem build_configuration_probing_witness :
    build_configuration fallback_shape "my-id" "my-secret" (some "https://api.example.com") =
      .ok { set_client_id := none, set_app_sid := some "my-id", set_client_secret := none
            set_app_key := some "my-secret", set_api_base_url := none
            set_base_url := some "https://api.example.com" } := by
  exact (build_configuration_probing fallback_shape "my-id" "my-secret"
    "https://api.example.com" (by decide)).2.2.2

/-- Claim C7: in both adapter variants every element of the result list comes
from one item of the extracted list and carries a definite (never null)
value and symbology, each defaulting to the empty string when the payload
item lacks the corresponding attribute, and a confidence that is absent
exactly when the payload item has no confidence attribute. -/
theorem scan_results_defaults (response : ScanResponse) :
    scan_results_new response = scan_results_legacy response ∧
    ∀ b ∈ scan_results_new response, ∃ item ∈ extract_results response,
      b = to_recognized item ∧
      b.value = item.barcode_value.getD "" ∧
      b.symbology = item.type.getD (item.code_type_name.getD "") ∧
      (item.barcode_value = none → b.value = "") ∧
      (item.type = none → item.code_type_name = none → b.symbology = "") ∧
      (b.confidence = none ↔ item.confidence = none) := by
  refine ⟨rfl, ?_⟩
  intro b hb
  rcases List.mem_map.mp hb with ⟨item, hi, rfl⟩
  refine ⟨item, hi, rfl, rfl, rfl, ?_, ?_, Iff.rfl⟩
  · intro h
    simp [to_recognized, h]
  · intro h1 h2
    simp [to_recognized, h1, h2]

/-- Witness for claim C7 at a concrete response. -/
theorem scan_results_defaults_witness :
    scan_results_new sample_response = scan_results_legacy sample_response ∧
    ∃ item ∈ extract_results sample_response,
      to_recognized sample_item = to_recognized item := by
  have h := scan_results_defaults sample_response
  refine ⟨h.1, ?_⟩
  have hb : to_recognized sample_item ∈ scan_results_new sample_response := by decide
  rcases h.2 (to_recognized sample_item) hb with ⟨item, hi, heq, _⟩
  exact ⟨item, hi, heq⟩

/-- Claim C8: in the legacy adapter variant the symbology filters are joined
into one comma-separated string passed as the `type` parameter when at least
one filter is given, and the `type` parameter is left unset when no filters
are given; the raw image bytes are passed as the `file` content, and the
`preset` parameter is included exactly when a truthy preset is given. -/
theorem legacy_request_spec (image_bytes : List Nat) (barcode_types : Option (List String))
    (preset : Option String) :
    (∀ t ts, barcode_types = some (t :: ts) →
      (legacy_request image_bytes barcode_types preset).type =
        some (pyJoin "," (t :: ts))) ∧
    (barcode_types = none ∨ barcode_types = some [] →
      (legacy_request image_bytes barcode_types preset).type = none) ∧
    (legacy_request image_bytes barcode_types preset).file = image_bytes ∧
    (∀ p, preset = some p → p ≠ "" →
      (legacy_request image_bytes barcode_types preset).preset = some p) ∧
    (preset = none ∨ preset = some "" →
      (legacy_request image_bytes barcode_types preset).preset = none) := by
  refine ⟨?_, ?_, rfl, ?_, ?_⟩
  · intro t ts h
    simp [legacy_request, h, truthyList]
  · intro h
    rcases h with h | h <;> simp [legacy_request, h, truthyList]
  · intro p h hne
    simp [legacy_request, h, truthyStr, hne]
  · intro h
    rcases h with h | h <;> simp [legacy_request, h, truthyStr]

/-- Witness for claim C8 at concrete bytes, filters and preset. -/
theorem legacy_request_spec_witness :
    (legacy_request [137, 80] (some ["QR", "Code128"]) (some "HighPerformance")).type =
      some "QR,Code128" ∧
    (legacy_request [137, 80] (some ["QR", "Code128"]) (some "HighPerformance")).preset =
      some "HighPerformance" ∧
    (legacy_request [137, 80] none none).type = none := by
  have h := legacy_request_spec [137, 80] (some ["QR", "Code128"]) (some "HighPerformance")
  have h2 := legacy_request_spec [137, 80] none none
  refine ⟨?_, h.2.2.2.1 "HighPerformance" rfl (by decide), h2.2.1 (Or.inl rfl)⟩
  have hj := h.1 "QR" ["Code128"] rfl
  rw [hj]
  decide

/-- Claim C9: on the modelled coherent control flow, an invocation with
truthy credentials, an existing image and a successful remote scan performs
exactly the sequence configure logging, validate credentials, construct
adapter, scan (with its network call), release adapter, format and print,
and returns exit code 0.  The shipped `app/cli.py` itself cannot execute
this sequence for any invocation: its lines 131-136 are a duplicated block
whose two `else:` clauses follow no matching `if`, so importing the module
raises a `SyntaxError` before `main` can run. -/
theorem main_success_sequence (args : CliArgs) (new_sdk : Bool) (response : ScanResponse)
    (h1 : truthyStr args.client_id = true) (h2 : truthyStr args.client_secret = true) :
    ∃ out : Output,
      main_run args true new_sdk response =
        { outcome := .returned 0
          events := [Event.configure_logging, Event.credentials_validated,
                     Event.adapter_constructed, Event.scan_invoked, Event.network_call,
                     Event.adapter_released, Event.printed]
          stdout := some out } := by
  have hok := ensure_credentials_ok args.client_id args.client_secret h1 h2
  cases hj : args.json_mode
  · exact ⟨.table (format_table
        ((if new_sdk then scan_results_new response else scan_results_legacy response).map
          to_payload) ++ "\n"),
      by simp [main_run, hok, hj]⟩
  · exact ⟨.json_doc (json_payload
        ((if new_sdk then scan_results_new response else scan_results_legacy response).map
          to_payload)),
      by simp [main_run, hok, hj]⟩

/-- Witness for claim C9 at concrete arguments and response. -/
theorem main_success_sequence_witness :
    ∃ out : Output,
      main_run sample_args true true sample_response =
        { outcome := .returned 0
          events := [Event.configure_logging, Event.credentials_validated,
                     Event.adapter_constructed, Event.scan_invoked, Event.network_call,
                     Event.adapter_released, Event.printed]
          stdout := some out } :=
  main_success_sequence sample_args true sample_response (by decide) (by decide)

/-- Claim C10: when the resolved client id or client secret is the empty
string, the credential check rejects the invocation exactly as if the
credential were absent: same diagnostic, same single-step trace, and the
whole result coincides with the result for absent credentials, with no
adapter construction. -/
theorem empty_credential_rejected (args : CliArgs) (image_exists new_sdk : Bool)
    (response : ScanResponse)
    (h : args.client_id = some "" ∨ args.client_secret = some "") :
    (main_run args image_exists new_sdk response).outcome =
      .failed missing_credentials_message ∧
    exit_code (main_run args image_exists new_sdk response).outcome ≠ 0 ∧
    (main_run args image_exists new_sdk response).events = [Event.configure_logging] ∧
    main_run args image_exists new_sdk response =
      main_run { args with client_id := none, client_secret := none }
        image_exists new_sdk response := by
  have hft : truthyStr args.client_id = false ∨ truthyStr args.client_secret = false := by
    rcases h with h | h
    · exact Or.inl (by simp [h, truthyStr])
    · exact Or.inr (by simp [h, truthyStr])
  have hm := main_run_creds_not_truthy args image_exists new_sdk response hft
  have hm2 := main_run_creds_not_truthy
    { args with client_id := none, client_secret := none }
    image_exists new_sdk response (Or.inl (by simp [truthyStr]))
  rw [hm, hm2]
  exact ⟨rfl, by simp [exit_code], rfl, rfl⟩

/-- Witness for claim C10: the client id passed as the empty string. -/
theorem empty_credential_rejected_witness :
    (main_run empty_id_args true true empty_response).outcome =
      .failed missing_credentials_message ∧
    main_run empty_id_args true true empty_response =
      main_run { empty_id_args with client_id := none, client_secret := none }
        true true empty_response := by
  have h := empty_credential_rejected empty_id_args true true empty_response (Or.inl rfl)
  exact ⟨h.1, h.2.2.2⟩
